import Mathlib

/-!
Verification development for the Raydium V4 AMM trading client
(`main.go`, `raydium_swap.go`, `main_working.go`).

Shallow embedding conventions:
* byte sequences are `List Nat` with each element a byte value;
* Solana public keys (32-byte identifiers) are `List Nat` as well;
* Go `uint64` values are `Nat` (bounds stated explicitly where overflow
  or the `big.Int → uint64` conversion matters);
* the ed25519 on-curve test inside `solana.CreateProgramAddress` is
  cryptographic and is abstracted as an oracle parameter `cpa`: it maps
  (seeds, programId) to `some address` when the candidate is off-curve
  and to `none` when the candidate is on-curve (the library returns an
  error in that case);
* fallible Go functions returning `(T, error)` become `Option`-valued
  functions;
* RPC collaborator results (vault balances, account bytes) are passed
  in as explicit arguments.
-/

set_option maxRecDepth 100000

namespace DefiClient

/-- Raw bytes of a Solana public key (32 bytes in the real system). -/
abbrev PubKey := List Nat

/-- The all-zero public key; `solana.PublicKey.IsZero` holds exactly for it. -/
def zeroPubKey : PubKey := List.replicate 32 0

/-- Base58 public-key constants used by the source (`token.ProgramID`,
`solana.SystemProgramID`, `OPENBOOK_PROGRAM`, `RAYDIUM_AMM_V4`,
`WSOL_MINT`, `SOL_MINT`).  Their concrete 32-byte values are opaque
protocol constants, so the embedding carries them as an environment. -/
structure Env where
  tokenProgramID : PubKey
  systemProgramID : PubKey
  openbookProgram : PubKey
  raydiumAmmV4 : PubKey
  wsolMint : PubKey
  solMint : PubKey

/-- Raydium swap instruction discriminator, `RAYDIUM_SWAP_INSTRUCTION = uint8(9)`. -/
def RAYDIUM_SWAP_INSTRUCTION : Nat := 9

/-- Raydium authority PDA seed `AUTHORITY_AMM_SEED = "amm authority"`, as ASCII bytes. -/
def AUTHORITY_AMM_SEED : List Nat :=
  [97, 109, 109, 32, 97, 117, 116, 104, 111, 114, 105, 116, 121]

/-! ## QuoteEngine core: calculateSwapAmount (main.go:1348-1365) -/

/-- Embedding of `calculateSwapAmount(reserveOut, reserveIn, amountIn uint64) uint64`.
The Go code computes `(reserveOut * amountIn) / (reserveIn + amountIn)` in
`math/big` arbitrary-precision integers and converts the result with
`.Uint64()`.  `big.Int.Div` panics when the denominator is zero, which the
embedding records as `none`.  The result never exceeds `reserveOut`, so the
final `.Uint64()` conversion is lossless for `uint64` reserves (proved in
`c1_swap_formula`). -/
def calculateSwapAmount (reserveOut reserveIn amountIn : Nat) : Option Nat :=
  if reserveIn + amountIn = 0 then none
  else some (reserveOut * amountIn / (reserveIn + amountIn))

/-! ## SwapInstructionPayload (main.go:252-266, raydium_swap.go:86-96) -/

/-- Little-endian byte serialization of a natural number into `k` bytes;
`leBytes 8 n` models `binary.LittleEndian.PutUint64` for `n < 2^64`. -/
def leBytes : Nat → Nat → List Nat
  | 0, _ => []
  | k + 1, n => n % 256 :: leBytes k (n / 256)

/-- Little-endian byte decoding, the inverse reading of `leBytes`. -/
def fromLEBytes : List Nat → Nat
  | [] => 0
  | b :: bs => b + 256 * fromLEBytes bs

/-- Embedding of the instruction-data serialization in
`createSwapInstruction` (main.go:252-266): one opcode byte `9`, then
`amountIn` as 8 little-endian bytes, then `minAmountOut` as 8
little-endian bytes.  `CreateRaydiumSwapInstruction`
(raydium_swap.go:86-96) produces the same 17 bytes through the Borsh
encoder (u8 then two little-endian u64). -/
def createSwapInstructionData (amountIn minAmountOut : Nat) : List Nat :=
  RAYDIUM_SWAP_INSTRUCTION :: (leBytes 8 amountIn ++ leBytes 8 minAmountOut)

/-- Modelled from the spec: no decoder for the 17-byte payload exists in
the source tree; this is the inverse reading of the documented layout
(opcode byte 0, amountIn little-endian in bytes 1-8, minAmountOut
little-endian in bytes 9-16, exactly 17 bytes). -/
def decodeSwapInstructionData (d : List Nat) : Option (Nat × Nat × Nat) :=
  if d.length = 17 then
    some (d.getD 0 0, fromLEBytes ((d.drop 1).take 8), fromLEBytes (d.drop 9))
  else none

/-! ### Helper lemmas -/

theorem leBytes_length (k n : Nat) : (leBytes k n).length = k := by
  induction k generalizing n with
  | zero => rfl
  | succ k ih => simp [leBytes, ih]

theorem fromLEBytes_leBytes (k n : Nat) : fromLEBytes (leBytes k n) = n % 256 ^ k := by
  induction k generalizing n with
  | zero => simp [leBytes, fromLEBytes, Nat.mod_one]
  | succ k ih =>
    rw [pow_succ']
    simp only [leBytes, fromLEBytes, ih]
    rw [Nat.mod_mul]

/-- Division helper: floors compare whenever the cross products do. -/
theorem div_le_div_of_cross (x y b d : Nat) (hb : 0 < b) (hd : 0 < d)
    (h : x * d ≤ y * b) : x / b ≤ y / d := by
  rw [Nat.le_div_iff_mul_le hd]
  calc x / b * d ≤ x * d / b := by
        rw [Nat.le_div_iff_mul_le hb]
        calc x / b * d * b = x / b * b * d := by ring
          _ ≤ x * d := Nat.mul_le_mul_right d (Nat.div_mul_le_self x b)
    _ ≤ y * b / b := Nat.div_le_div_right h
    _ = y := by rw [Nat.mul_div_assoc y (dvd_refl b), Nat.div_self hb, Nat.mul_one]

/-! ## C1 theorems -/

/-- C1 counterexample: the claim fails as stated.  With `reserveIn = 0`
(and positive `amountIn = 1`) the raw output equals `reserveOut`, not
strictly less; with `reserveOut = 0` the output `0` is also not strictly
below `reserveOut`; and at `reserveIn = 0`, `amountIn = 0` the Go code
panics (division by zero) instead of producing any output. -/
theorem c1_counterexample :
    calculateSwapAmount 1 0 1 = some 1 ∧ ¬ (1 < 1) ∧
    calculateSwapAmount 0 5 3 = some 0 ∧ ¬ (0 < 0) ∧
    calculateSwapAmount 7 0 0 = none := by
  refine ⟨by decide, by decide, by decide, by decide, by decide⟩

/-- C1 amended: for positive reserves the raw swap output equals
`floor(reserveOut * amountIn / (reserveIn + amountIn))` computed in exact
integer arithmetic (and is at most `reserveOut`, so the `uint64`
conversion is exact); the output is non-decreasing in `amountIn`; and it
is strictly less than `reserveOut` for every `amountIn` (in particular
every positive one). -/
theorem c1_swap_formula (rOut rIn a1 a2 : Nat)
    (hrIn : 0 < rIn) (hrOut : 0 < rOut) (h12 : a1 ≤ a2) :
    calculateSwapAmount rOut rIn a1 = some (rOut * a1 / (rIn + a1)) ∧
    rOut * a1 / (rIn + a1) ≤ rOut * a2 / (rIn + a2) ∧
    rOut * a1 / (rIn + a1) < rOut := by
  have hd1 : 0 < rIn + a1 := by omega
  have hd2 : 0 < rIn + a2 := by omega
  refine ⟨?_, ?_, ?_⟩
  · simp [calculateSwapAmount, Nat.pos_iff_ne_zero.mp hd1]
  · apply div_le_div_of_cross _ _ _ _ hd1 hd2
    have hx : a1 * (rIn + a2) ≤ a2 * (rIn + a1) := by
      have := Nat.mul_le_mul_right rIn h12
      nlinarith
    calc rOut * a1 * (rIn + a2) = rOut * (a1 * (rIn + a2)) := by ring
      _ ≤ rOut * (a2 * (rIn + a1)) := Nat.mul_le_mul_left rOut hx
      _ = rOut * a2 * (rIn + a1) := by ring
  · rw [Nat.div_lt_iff_lt_mul hd1]
    have : a1 < rIn + a1 := by omega
    exact mul_lt_mul_of_pos_left this hrOut

/-- C1 witness: the amended theorem at `reserveOut = 10`, `reserveIn = 4`,
`amountIn` going from `3` to `5`. -/
theorem c1_swap_formula_witness :
    (0 < 4 ∧ 0 < 10 ∧ 3 ≤ 5) ∧
    (calculateSwapAmount 10 4 3 = some (10 * 3 / (4 + 3)) ∧
     10 * 3 / (4 + 3) ≤ 10 * 5 / (4 + 5) ∧
     10 * 3 / (4 + 3) < 10) :=
  ⟨by decide, c1_swap_formula 10 4 3 5 (by decide) (by decide) (by decide)⟩

/-! ## C3 theorems -/

/-- C3: the encoded swap payload is exactly 17 bytes: opcode byte `9`,
then `amountIn` in little-endian byte order, then `minAmountOut` in
little-endian byte order, with no padding; decoding the payload recovers
the identical triple. -/
theorem c3_payload_roundtrip (a m : Nat) (ha : a < 2 ^ 64) (hm : m < 2 ^ 64) :
    (createSwapInstructionData a m).length = 17 ∧
    createSwapInstructionData a m =
      [9, a % 256, a / 256 % 256, a / 256 ^ 2 % 256, a / 256 ^ 3 % 256,
       a / 256 ^ 4 % 256, a / 256 ^ 5 % 256, a / 256 ^ 6 % 256, a / 256 ^ 7 % 256,
       m % 256, m / 256 % 256, m / 256 ^ 2 % 256, m / 256 ^ 3 % 256,
       m / 256 ^ 4 % 256, m / 256 ^ 5 % 256, m / 256 ^ 6 % 256, m / 256 ^ 7 % 256] ∧
    decodeSwapInstructionData (createSwapInstructionData a m) =
      some (RAYDIUM_SWAP_INSTRUCTION, a, m) := by
  have hlen : (createSwapInstructionData a m).length = 17 := by
    simp [createSwapInstructionData, leBytes_length]
  have hexp : ∀ n : Nat, leBytes 8 n =
      [n % 256, n / 256 % 256, n / 256 ^ 2 % 256, n / 256 ^ 3 % 256,
       n / 256 ^ 4 % 256, n / 256 ^ 5 % 256, n / 256 ^ 6 % 256, n / 256 ^ 7 % 256] := by
    intro n
    simp only [leBytes, Nat.div_div_eq_div_mul]
    norm_num
  refine ⟨hlen, ?_, ?_⟩
  · simp [createSwapInstructionData, hexp, RAYDIUM_SWAP_INSTRUCTION]
  · have h256 : (256 : Nat) ^ 8 = 2 ^ 64 := by norm_num
    have h1 : fromLEBytes ((leBytes 8 a ++ leBytes 8 m).take 8) = a := by
      rw [List.take_left' (leBytes_length 8 a), fromLEBytes_leBytes, h256,
        Nat.mod_eq_of_lt ha]
    have h2 : fromLEBytes ((leBytes 8 a ++ leBytes 8 m).drop 8) = m := by
      rw [List.drop_left' (leBytes_length 8 a), fromLEBytes_leBytes, h256,
        Nat.mod_eq_of_lt hm]
    simp only [decodeSwapInstructionData, createSwapInstructionData, hlen, if_pos]
    rw [List.drop_one, List.tail_cons, List.take_left' (leBytes_length 8 a)]
    have h9 : RAYDIUM_SWAP_INSTRUCTION :: (leBytes 8 a ++ leBytes 8 m) =
        (RAYDIUM_SWAP_INSTRUCTION :: leBytes 8 a) ++ leBytes 8 m := by simp
    rw [h9, List.drop_left']
    · rw [fromLEBytes_leBytes, h256, Nat.mod_eq_of_lt ha,
        fromLEBytes_leBytes, h256, Nat.mod_eq_of_lt hm]
      rfl
    · simp [leBytes_length]

/-- C3 witness: the round trip at `amountIn = 1`, `minAmountOut = 2`. -/
theorem c3_payload_roundtrip_witness :
    (1 < 2 ^ 64 ∧ 2 < 2 ^ 64) ∧
    ((createSwapInstructionData 1 2).length = 17 ∧
     createSwapInstructionData 1 2 =
      [9, 1 % 256, 1 / 256 % 256, 1 / 256 ^ 2 % 256, 1 / 256 ^ 3 % 256,
       1 / 256 ^ 4 % 256, 1 / 256 ^ 5 % 256, 1 / 256 ^ 6 % 256, 1 / 256 ^ 7 % 256,
       2 % 256, 2 / 256 % 256, 2 / 256 ^ 2 % 256, 2 / 256 ^ 3 % 256,
       2 / 256 ^ 4 % 256, 2 / 256 ^ 5 % 256, 2 / 256 ^ 6 % 256, 2 / 256 ^ 7 % 256] ∧
     decodeSwapInstructionData (createSwapInstructionData 1 2) =
      some (RAYDIUM_SWAP_INSTRUCTION, 1, 2)) :=
  ⟨by norm_num, c3_payload_roundtrip 1 2 (by norm_num) (by norm_num)⟩

/-! ## AddressDeriver (main.go:269-304, main.go:1105-1123)

`solana.CreateProgramAddress(seeds, programId)` hashes the seeds and fails
exactly when the resulting point lies on the ed25519 curve; the hash and
curve test are abstracted as the oracle below. -/

/-- Oracle abstracting `solana.CreateProgramAddress`: maps (seeds,
programId) to `some address` for an off-curve candidate and `none` for an
on-curve one. -/
abbrev CPA := List (List Nat) → PubKey → Option PubKey

/-- Ascending linear search: try `f lo`, `f (lo+1)`, ..., `cnt` attempts,
returning the first hit together with its index.  Embeds the Go loop
`for nonce := uint8(0); nonce < 255; nonce++ { ... break }` in
`createSwapInstruction` when used with `lo = 0`, `cnt = 255`. -/
def scanAsc {α : Type} (f : Nat → Option α) : Nat → Nat → Option (α × Nat)
  | _, 0 => none
  | lo, c + 1 =>
    match f lo with
    | some a => some (a, lo)
    | none => scanAsc f (lo + 1) c

/-- Descending linear search: try `f hi`, `f (hi-1)`, ..., `cnt` attempts,
returning the first hit together with its index. -/
def scanDesc {α : Type} (f : Nat → Option α) : Nat → Nat → Option (α × Nat)
  | _, 0 => none
  | hi, c + 1 =>
    match f hi with
    | some a => some (a, hi)
    | none => scanDesc f (hi - 1) c

/-- Embedding of the library collaborator `solana.FindProgramAddress`
(gagliardetto/solana-go), called by `parsePoolAccount` for the pool
authority and by the vault-signer fallback in `createSwapInstruction`.
The library appends a bump-seed byte to the seeds and tries bump values
`255, 254, ..., 1` (`bumpSeed := uint8(math.MaxUint8); for bumpSeed != 0
{ ...; bumpSeed-- }`), returning the first off-curve candidate; bump `0`
is never tried. -/
def findProgramAddress (cpa : CPA) (seeds : List (List Nat)) (pid : PubKey) :
    Option (PubKey × Nat) :=
  scanDesc (fun b => cpa (seeds ++ [[b]]) pid) 255 255

/-- Embedding of the ascending market-vault-signer loop in
`createSwapInstruction` (main.go:275-288): nonce candidates `0..254`
(the loop condition is `nonce < 255`), seeds `[market, [nonce]]`. -/
def marketVaultSignerScan (cpa : CPA) (market marketProgram : PubKey) :
    Option (PubKey × Nat) :=
  scanAsc (fun n => cpa [market, [n]] marketProgram) 0 255

/-! ### Search lemmas -/

theorem scanAsc_spec {α : Type} (f : Nat → Option α) (c : Nat) :
    ∀ lo a k, scanAsc f lo c = some (a, k) →
      f k = some a ∧ lo ≤ k ∧ k < lo + c ∧ ∀ j, lo ≤ j → j < k → f j = none := by
  induction c with
  | zero => intro lo a k h; simp [scanAsc] at h
  | succ c ih =>
    intro lo a k h
    rw [scanAsc] at h
    cases hf : f lo with
    | some a0 =>
      rw [hf] at h
      simp at h
      obtain ⟨rfl, rfl⟩ := h
      exact ⟨hf, le_refl _, by omega, fun j h1 h2 => absurd h1 (by omega)⟩
    | none =>
      rw [hf] at h
      simp at h
      obtain ⟨h1, h2, h3, h4⟩ := ih (lo + 1) a k h
      refine ⟨h1, by omega, by omega, fun j hj1 hj2 => ?_⟩
      rcases Nat.eq_or_lt_of_le hj1 with rfl | hj
      · exact hf
      · exact h4 j hj hj2

theorem scanDesc_spec {α : Type} (f : Nat → Option α) (c : Nat) :
    ∀ hi a k, scanDesc f hi c = some (a, k) →
      f k = some a ∧ k ≤ hi ∧ hi < k + c ∧ ∀ j, k < j → j ≤ hi → f j = none := by
  induction c with
  | zero => intro hi a k h; simp [scanDesc] at h
  | succ c ih =>
    intro hi a k h
    rw [scanDesc] at h
    cases hf : f hi with
    | some a0 =>
      rw [hf] at h
      simp at h
      obtain ⟨rfl, rfl⟩ := h
      exact ⟨hf, le_refl _, by omega, fun j h1 h2 => absurd h1 (by omega)⟩
    | none =>
      rw [hf] at h
      simp at h
      obtain ⟨h1, h2, h3, h4⟩ := ih (hi - 1) a k h
      by_cases hhi : hi = 0
      · subst hhi
        simp at h2 h3
        refine ⟨h1, by omega, by omega, fun j hj1 hj2 => ?_⟩
        omega
      · refine ⟨h1, by omega, by omega, fun j hj1 hj2 => ?_⟩
        rcases Nat.eq_or_lt_of_le hj2 with rfl | hj
        · exact hf
        · exact h4 j hj1 (by omega)

/-! ## AccountDecoder: parsePoolAccount (main.go:1076-1126) -/

/-- Pool record `OnChainPool` (main.go:81-104).  Fields the Go struct
leaves at their zero value after `parsePoolAccount` stay `0` /
`zeroPubKey` here. -/
structure OnChainPool where
  Address : PubKey
  BaseMint : PubKey
  QuoteMint : PubKey
  BaseVault : PubKey
  QuoteVault : PubKey
  BaseAmount : Nat
  QuoteAmount : Nat
  BaseDecimals : Nat
  QuoteDecimals : Nat
  Authority : PubKey
  OpenOrders : PubKey
  TargetOrders : PubKey
  MarketProgram : PubKey
  Market : PubKey
  MarketBids : PubKey
  MarketAsks : PubKey
  MarketEventQueue : PubKey
  MarketBaseVault : PubKey
  MarketQuoteVault : PubKey
  Nonce : Nat
  MarketNonce : Nat
deriving DecidableEq

/-- Byte slice `data[a:b]` of a Go byte slice. -/
def slice (data : List Nat) (a b : Nat) : List Nat := (data.drop a).take (b - a)

/-- Embedding of `parsePoolAccount(address, data)` (main.go:1076-1126),
parameterized by the oracle `cpa` (used by the pool-authority
`solana.FindProgramAddress` call on the fixed seed `"amm authority"` and
program id `raydium`) and by the Raydium program id.  Rejects inputs
shorter than 752 bytes; otherwise extracts the fixed-offset fields
verbatim, initializes both reserve amounts to `0`, and derives the
authority (the nonce-mismatch warning is a print and does not affect the
result; a failed derivation is an error). -/
def parsePoolAccount (cpa : CPA) (raydium : PubKey) (address : PubKey)
    (data : List Nat) : Option OnChainPool :=
  if data.length < 752 then none
  else
    match findProgramAddress cpa [AUTHORITY_AMM_SEED] raydium with
    | none => none
    | some (authority, _) =>
      some
        { Address := address
          Nonce := data.getD 8 0
          BaseVault := slice data 336 368
          QuoteVault := slice data 368 400
          BaseMint := slice data 400 432
          QuoteMint := slice data 432 464
          OpenOrders := slice data 464 496
          TargetOrders := slice data 592 624
          Market := slice data 656 688
          MarketProgram := slice data 688 720
          BaseAmount := 0
          QuoteAmount := 0
          Authority := authority
          BaseDecimals := 0
          QuoteDecimals := 0
          MarketBids := zeroPubKey
          MarketAsks := zeroPubKey
          MarketEventQueue := zeroPubKey
          MarketBaseVault := zeroPubKey
          MarketQuoteVault := zeroPubKey
          MarketNonce := 0 }

/-- Embedding of `fetchVaultBalances` (main.go:1206-1232): the two
collaborator balance queries (already parsed by `strconv.ParseUint`) are
passed in as `Option Nat`; a failed fetch or parse is an error, otherwise
the reserve fields are overwritten with the fetched values. -/
def fetchVaultBalances (pool : OnChainPool) (baseResp quoteResp : Option Nat) :
    Option OnChainPool :=
  match baseResp, quoteResp with
  | some b, some q => some { pool with BaseAmount := b, QuoteAmount := q }
  | _, _ => none

/-! ## C2 theorems -/

/-- C2: with the (data-independent) pool-authority derivation succeeding,
`parsePoolAccount` on any byte sequence of length at least 752 succeeds
and extracts the documented fixed-offset fields verbatim (nonce byte 8,
base vault [336,368), quote vault [368,400), base mint [400,432), quote
mint [432,464), open orders [464,496), target orders [592,624), market id
[656,688), market program [688,720)); on any byte sequence of length less
than 752 it always fails with a decode error. -/
theorem c2_pool_decode (cpa : CPA) (raydium addr auth : PubKey) (n : Nat)
    (data1 data2 : List Nat)
    (hauth : findProgramAddress cpa [AUTHORITY_AMM_SEED] raydium = some (auth, n))
    (h1 : 752 ≤ data1.length) (h2 : data2.length < 752) :
    parsePoolAccount cpa raydium addr data1 =
      some
        { Address := addr
          Nonce := data1.getD 8 0
          BaseVault := slice data1 336 368
          QuoteVault := slice data1 368 400
          BaseMint := slice data1 400 432
          QuoteMint := slice data1 432 464
          OpenOrders := slice data1 464 496
          TargetOrders := slice data1 592 624
          Market := slice data1 656 688
          MarketProgram := slice data1 688 720
          BaseAmount := 0
          QuoteAmount := 0
          Authority := auth
          BaseDecimals := 0
          QuoteDecimals := 0
          MarketBids := zeroPubKey
          MarketAsks := zeroPubKey
          MarketEventQueue := zeroPubKey
          MarketBaseVault := zeroPubKey
          MarketQuoteVault := zeroPubKey
          MarketNonce := 0 } ∧
    (slice data1 336 368).length = 32 ∧ (slice data1 688 720).length = 32 ∧
    parsePoolAccount cpa raydium addr data2 = none := by
  refine ⟨?_, ?_, ?_, ?_⟩
  · simp [parsePoolAccount, Nat.not_lt.mpr h1, hauth]
  · simp [slice]; omega
  · simp [slice]; omega
  · simp [parsePoolAccount, h2]

/-- Oracle for witnesses: every candidate is off-curve. -/
def cpaAll : CPA := fun _ _ => some [0]

/-- A 752-byte all-zero pool account blob, used as witness input. -/
def data752 : List Nat := List.replicate 752 0

/-- The pool obtained by decoding `data752` under `cpaAll`. -/
def testParsedPool : OnChainPool :=
  { Address := [1]
    Nonce := 0
    BaseVault := zeroPubKey
    QuoteVault := zeroPubKey
    BaseMint := zeroPubKey
    QuoteMint := zeroPubKey
    OpenOrders := zeroPubKey
    TargetOrders := zeroPubKey
    Market := zeroPubKey
    MarketProgram := zeroPubKey
    BaseAmount := 0
    QuoteAmount := 0
    Authority := [0]
    BaseDecimals := 0
    QuoteDecimals := 0
    MarketBids := zeroPubKey
    MarketAsks := zeroPubKey
    MarketEventQueue := zeroPubKey
    MarketBaseVault := zeroPubKey
    MarketQuoteVault := zeroPubKey
    MarketNonce := 0 }

/-- C2 witness: the theorem applied to a 752-byte blob and the empty blob. -/
theorem c2_pool_decode_witness :
    (findProgramAddress cpaAll [AUTHORITY_AMM_SEED] [4] = some ([0], 255) ∧
     752 ≤ data752.length ∧ List.length ([] : List Nat) < 752) ∧
    (parsePoolAccount cpaAll [4] [1] data752 = some testParsedPool ∧
     (slice data752 336 368).length = 32 ∧ (slice data752 688 720).length = 32 ∧
     parsePoolAccount cpaAll [4] [1] [] = none) :=
  ⟨⟨by decide, by decide, by decide⟩, by
    exact c2_pool_decode cpaAll [4] [1] [0] 255 data752 []
      (by decide) (by decide) (by decide)⟩

/-! ## C9 theorems -/

/-- C9: the pool decoder never reads reserve amounts from the account
blob: every pool it returns has both reserve amounts equal to zero,
whatever the bytes were; the reserves are populated only by
`fetchVaultBalances` from the live vault token-balance fetch (and a
failed fetch is an error, never a blob-derived value). -/
theorem c9_reserves (cpa : CPA) (raydium addr : PubKey) (data : List Nat)
    (p : OnChainPool) (b q : Nat)
    (h : parsePoolAccount cpa raydium addr data = some p) :
    p.BaseAmount = 0 ∧ p.QuoteAmount = 0 ∧
    fetchVaultBalances p (some b) (some q) =
      some { p with BaseAmount := b, QuoteAmount := q } ∧
    fetchVaultBalances p (some b) none = none ∧
    fetchVaultBalances p none (some q) = none := by
  unfold parsePoolAccount at h
  split at h
  · exact absurd h (by simp)
  · split at h
    · exact absurd h (by simp)
    · have hp := (Option.some_inj.mp h).symm
      subst hp
      exact ⟨rfl, rfl, rfl, rfl, rfl⟩

/-- C9 witness: the theorem applied to the 752-byte zero blob. -/
theorem c9_reserves_witness :
    parsePoolAccount cpaAll [4] [1] data752 = some testParsedPool ∧
    (testParsedPool.BaseAmount = 0 ∧ testParsedPool.QuoteAmount = 0 ∧
     fetchVaultBalances testParsedPool (some 11) (some 22) =
       some { testParsedPool with BaseAmount := 11, QuoteAmount := 22 } ∧
     fetchVaultBalances testParsedPool (some 11) none = none ∧
     fetchVaultBalances testParsedPool none (some 22) = none) :=
  ⟨by decide, by
    exact c9_reserves cpaAll [4] [1] data752 testParsedPool 11 22 (by decide)⟩

/-! ## C6 theorems -/

/-- Oracle for the C6 counterexample: for program id `[4]` and the
authority seed, exactly the bump bytes `1` and `254` are off-curve. -/
def cpa6c : CPA := fun seeds pid =>
  if pid = [4] ∧ (seeds = [AUTHORITY_AMM_SEED, [1]] ∨ seeds = [AUTHORITY_AMM_SEED, [254]])
  then some [42] else none

/-- C6 counterexample: the pool-authority derivation
(`solana.FindProgramAddress` on the `"amm authority"` seed, as called by
`parsePoolAccount`) searches bump seeds descending from 255 and therefore
returns nonce 254 even though nonce 1 also yields an off-curve address:
the returned nonce is the largest valid one, not the smallest, refuting
the claim that both derivations enumerate 0..255 ascending and return the
smallest off-curve nonce. -/
theorem c6_counterexample :
    findProgramAddress cpa6c [AUTHORITY_AMM_SEED] [4] = some ([42], 254) ∧
    cpa6c [AUTHORITY_AMM_SEED, [1]] [4] = some [42] ∧
    (1 : Nat) < 254 := by
  refine ⟨by decide, by decide, by decide⟩

/-- C6 amended: the market-vault-signer loop in `createSwapInstruction`
enumerates nonces 0..254 ascending and returns the first off-curve
candidate, so every nonce below the returned one is on-curve (the
returned nonce is the smallest valid one in [0,254]); the pool-authority
derivation delegates to the library search, which enumerates bump seeds
255 down to 1 descending and returns the first off-curve candidate, so
the returned nonce lies in [1,255] and every larger nonce up to 255 is
on-curve (it is the largest valid one, and nonce 0 is never tried). -/
theorem c6_derivation_order (cpa : CPA) (market mp : PubKey)
    (seeds : List (List Nat)) (pid : PubKey) (a1 a2 : PubKey)
    (k1 k2 j1 j2 : Nat)
    (h1 : marketVaultSignerScan cpa market mp = some (a1, k1))
    (h2 : findProgramAddress cpa seeds pid = some (a2, k2))
    (hj1 : j1 < k1) (hj2a : k2 < j2) (hj2b : j2 ≤ 255) :
    cpa [market, [k1]] mp = some a1 ∧ k1 < 255 ∧
    cpa [market, [j1]] mp = none ∧
    cpa (seeds ++ [[k2]]) pid = some a2 ∧ 1 ≤ k2 ∧ k2 ≤ 255 ∧
    cpa (seeds ++ [[j2]]) pid = none := by
  obtain ⟨hf1, _, hk1, hmin⟩ := scanAsc_spec _ 255 0 a1 k1 h1
  obtain ⟨hf2, hk2, hlo2, hmax⟩ := scanDesc_spec _ 255 255 a2 k2 h2
  exact ⟨hf1, by omega, hmin j1 (by omega) hj1, hf2, by omega, hk2,
    hmax j2 hj2a hj2b⟩

/-- Oracle for the C6 witness: vault-signer candidates `[[7],[n]]` under
program `[3]` are off-curve for n ∈ {2,4}; authority-style candidates
`[[9],[b]]` under program `[4]` are off-curve for b ∈ {251,254}. -/
def cpa6w : CPA := fun seeds pid =>
  if pid = [3] then
    (if seeds = [[7], [2]] ∨ seeds = [[7], [4]] then some [21] else none)
  else if pid = [4] then
    (if seeds = [[9], [251]] ∨ seeds = [[9], [254]] then some [22] else none)
  else none

/-- C6 witness: the amended theorem applied to the concrete oracle
`cpa6w`, where the ascending loop returns nonce 2 and the descending
library search returns bump 254. -/
theorem c6_derivation_order_witness :
    (marketVaultSignerScan cpa6w [7] [3] = some ([21], 2) ∧
     findProgramAddress cpa6w [[9]] [4] = some ([22], 254) ∧
     0 < 2 ∧ 254 < 255 ∧ 255 ≤ 255) ∧
    (cpa6w [[7], [2]] [3] = some [21] ∧ 2 < 255 ∧
     cpa6w [[7], [0]] [3] = none ∧
     cpa6w ([[9]] ++ [[254]]) [4] = some [22] ∧ 1 ≤ 254 ∧ 254 ≤ 255 ∧
     cpa6w ([[9]] ++ [[255]]) [4] = none) :=
  ⟨⟨by decide, by decide, by decide, by decide, by decide⟩, by
    exact c6_derivation_order cpa6w [7] [3] [[9]] [4] [21] [22] 2 254 0 255
      (by decide) (by decide) (by decide) (by decide) (by decide)⟩

/-! ## InstructionCompiler: createSwapInstruction (main.go:242-376) -/

/-- Embedding of `solana.AccountMeta`. -/
structure AccountMeta where
  key : PubKey
  isSigner : Bool
  isWritable : Bool
deriving DecidableEq

/-- Embedding of the market-vault-signer resolution in
`createSwapInstruction` (main.go:268-304): for a non-zero market whose
program is the OpenBook program, run the ascending nonce loop; if it
finds nothing, fall back to the library `solana.FindProgramAddress` on
the market seed (an error there aborts); for any other market use the
system program id as a dummy. -/
def resolveMarketVaultSigner (cpa : CPA) (env : Env) (pool : OnChainPool) :
    Option PubKey :=
  if pool.Market ≠ zeroPubKey ∧ pool.MarketProgram = env.openbookProgram then
    match marketVaultSignerScan cpa pool.Market pool.MarketProgram with
    | some (a, _) => some a
    | none => (findProgramAddress cpa [pool.Market] pool.MarketProgram).map Prod.fst
  else some env.systemProgramID

/-- Embedding of the 18-entry account list built in
`createSwapInstruction` (main.go:306-344). -/
def createSwapAccounts (env : Env) (pool : OnChainPool)
    (marketVaultSigner userSource userDestination userOwner : PubKey) :
    List AccountMeta :=
  [{ key := env.tokenProgramID, isSigner := false, isWritable := false },
   { key := pool.Address, isSigner := false, isWritable := true },
   { key := pool.Authority, isSigner := false, isWritable := false },
   { key := pool.OpenOrders, isSigner := false, isWritable := true },
   { key := pool.TargetOrders, isSigner := false, isWritable := true },
   { key := pool.BaseVault, isSigner := false, isWritable := true },
   { key := pool.QuoteVault, isSigner := false, isWritable := true },
   { key := pool.MarketProgram, isSigner := false, isWritable := false },
   { key := pool.Market, isSigner := false, isWritable := true },
   { key := pool.MarketBids, isSigner := false, isWritable := true },
   { key := pool.MarketAsks, isSigner := false, isWritable := true },
   { key := pool.MarketEventQueue, isSigner := false, isWritable := true },
   { key := pool.MarketBaseVault, isSigner := false, isWritable := true },
   { key := pool.MarketQuoteVault, isSigner := false, isWritable := true },
   { key := marketVaultSigner, isSigner := false, isWritable := false },
   { key := userSource, isSigner := false, isWritable := true },
   { key := userDestination, isSigner := false, isWritable := true },
   { key := userOwner, isSigner := true, isWritable := false }]

/-- Embedding of `createSwapInstruction` (main.go:242-376): resolve the
market vault signer, then emit the instruction addressed to the Raydium
AMM program with the 18-entry account list and the 17-byte payload. -/
def createSwapInstruction (cpa : CPA) (env : Env) (pool : OnChainPool)
    (userSource userDestination userOwner : PubKey)
    (amountIn minAmountOut : Nat) :
    Option (PubKey × List AccountMeta × List Nat) :=
  (resolveMarketVaultSigner cpa env pool).map fun mvs =>
    (env.raydiumAmmV4,
     createSwapAccounts env pool mvs userSource userDestination userOwner,
     createSwapInstructionData amountIn minAmountOut)

/-! ## executeSwap instruction assembly (main.go:459-572) -/

/-- Instruction kinds assembled by `executeSwap`: associated-token-account
creation, the wrap pair (native transfer + sync-native), the swap itself,
and the close-account unwrap. -/
inductive Ix where
  | createATA (payer wallet mint : PubKey)
  | transfer (lamports : Nat) (source destination : PubKey)
  | syncNative (account : PubKey)
  | swap (amountIn minAmountOut : Nat)
  | closeAccount (account destination owner : PubKey)
deriving DecidableEq

/-- True exactly on the wrap-step instructions (native-balance transfer
and sync-native). -/
def isWrapIx : Ix → Bool
  | Ix.transfer _ _ _ => true
  | Ix.syncNative _ => true
  | _ => false

/-- Embedding of the swap-direction selection in `executeSwap`
(main.go:459-494): returns (sourceMint, destinationMint).  Buying routes
native in, selling routes the token in, keyed on whether the base mint is
the (wrapped) native mint. -/
def swapDirection (env : Env) (pool : OnChainPool) (side : String) :
    PubKey × PubKey :=
  if side = "buy" then
    if pool.BaseMint = env.wsolMint ∨ pool.BaseMint = env.solMint then
      (pool.BaseMint, pool.QuoteMint)
    else (pool.QuoteMint, pool.BaseMint)
  else
    if pool.BaseMint = env.wsolMint ∨ pool.BaseMint = env.solMint then
      (pool.QuoteMint, pool.BaseMint)
    else (pool.BaseMint, pool.QuoteMint)

/-- Embedding of the instruction list assembled by `executeSwap`
(main.go:499-572).  `sourceATAExists` / `destATAExists` are the
collaborator answers of `getOrCreateATA` (main.go:215-240): when an
associated account is missing, a creation instruction is prepended.  The
order in the source is: optional create-source, wrap pair (only when the
source mint is the wrapped-native mint and the side is "buy"), optional
create-destination, the swap, optional close-destination (only when the
destination mint is the wrapped-native mint and the side is "sell"). -/
def executeSwapInstructions (env : Env) (side : String)
    (sourceMint destMint : PubKey) (sourceATAExists destATAExists : Bool)
    (wallet sourceATA destATA : PubKey) (amountInRaw minAmountOut : Nat) :
    List Ix :=
  (if sourceATAExists then [] else [Ix.createATA wallet wallet sourceMint]) ++
  (if sourceMint = env.wsolMint ∧ side = "buy" then
    [Ix.transfer amountInRaw wallet sourceATA, Ix.syncNative sourceATA]
   else []) ++
  (if destATAExists then [] else [Ix.createATA wallet wallet destMint]) ++
  [Ix.swap amountInRaw minAmountOut] ++
  (if destMint = env.wsolMint ∧ side = "sell" then
    [Ix.closeAccount destATA wallet wallet]
   else [])

/-! ## CLI pool resolution (main.go:867-879) -/

/-- Embedding of the pool-address selection in `main` (main.go:867-879):
if a token address was supplied, `findPoolsOnChain` runs and its result
(passed here as `discovered`) is used; only otherwise is the `-pool` flag
value used.  The boolean records whether the discovery scan ran. -/
def resolvePoolAddress (poolAddr tokenAddr discovered : String) :
    String × Bool :=
  if tokenAddr ≠ "" then (discovered, true) else (poolAddr, false)

/-! ## Human-to-raw amount conversion (main.go:1319-1321, main.go:496-497,
raydium_swap.go:166-182)

The Go conversions multiply a float64 amount and truncate with a
`uint64(...)` cast.  They are embedded over exact rationals; at the
concrete inputs used in the theorems below every float operation involved
is exact, so the rational model evaluates identically. -/

/-- Embedding of `amountIn := uint64(params.Amount * math.Pow(10,
float64(inputDecimals)))` in `calculateQuoteOnChain` (main.go:1321) and
the identical conversion in `executeSwap` (main.go:497): multiply by ten
to the power of the input decimal count and truncate. -/
def quoteAmountInRaw (amount : ℚ) (inputDecimals : Nat) : ℤ :=
  ⌊amount * (10 : ℚ) ^ inputDecimals⌋

/-- Embedding of the buy-path conversion `amountInRaw = uint64(amountIn *
1e9)` in `ExecuteRaydiumSwap` (raydium_swap.go:176). -/
def raydiumBuyAmountInRaw (amountIn : ℚ) : ℤ :=
  ⌊amountIn * (10 : ℚ) ^ (9 : Nat)⌋

/-- Embedding of the sell-path conversion `amountInRaw = uint64(amountIn *
float64(pool.QuoteDecimals))` in `ExecuteRaydiumSwap`
(raydium_swap.go:181): the amount is multiplied by the decimal count
itself, not by ten to that power. -/
def raydiumSellAmountInRaw (amountIn : ℚ) (quoteDecimals : Nat) : ℤ :=
  ⌊amountIn * (quoteDecimals : ℚ)⌋

/-! ## Slippage input (main.go:166-201, main_working.go:49-70)

`strconv.ParseFloat` produces IEEE-754 values; the embedding keeps the
special values explicit.  Parsing itself (the Go float literal syntax) is
abstracted as a parameter `pf`; the Go standard library documents that
`ParseFloat` accepts the strings "NaN", "Inf" and "Infinity" (ignoring
case) with a nil error, which the concrete parsers used in the theorems
below reflect. -/

/-- Result values of `strconv.ParseFloat`: an ordinary (exactly
representable) value, the two infinities, or the not-a-number value. -/
inductive GoF where
  | nan
  | posInf
  | negInf
  | val (q : ℚ)
deriving DecidableEq

/-- IEEE-754 less-than on `GoF`: any comparison against the not-a-number
value is false. -/
def goLt : GoF → GoF → Bool
  | GoF.nan, _ => false
  | _, GoF.nan => false
  | GoF.negInf, GoF.negInf => false
  | GoF.negInf, _ => true
  | _, GoF.negInf => false
  | GoF.posInf, _ => false
  | GoF.val _, GoF.posInf => true
  | GoF.val a, GoF.val b => decide (a < b)

/-- IEEE-754 greater-than on `GoF`. -/
def goGt (a b : GoF) : Bool := goLt b a

/-- Mathematical membership in the interval [0,100]: only an ordinary
value between the bounds qualifies. -/
def goInRange (v : GoF) : Bool :=
  match v with
  | GoF.val q => decide (0 ≤ q ∧ q ≤ 100)
  | _ => false

/-- Whitespace test used by the trim embedding (the ASCII cases of the
Unicode white space class trimmed by `strings.TrimSpace`). -/
def isSpaceChar (c : Char) : Bool :=
  c = ' ' || c = '\t' || c = '\n' || c = '\r'

/-- Embedding of `strings.TrimSpace`: drop leading and trailing
whitespace characters. -/
def trimGo (s : String) : String :=
  ⟨((s.data.dropWhile isSpaceChar).reverse.dropWhile isSpaceChar).reverse⟩

/-- Embedding of `strings.TrimSuffix(s, "%")`: strip at most one trailing
percent sign. -/
def stripPct (s : String) : String :=
  if s.data.getLast? = some '%' then ⟨s.data.dropLast⟩ else s

/-- Embedding of `parseFloat` (main.go:197-201): trim whitespace, strip
one trailing percent sign, then the abstract `strconv.ParseFloat`. -/
def parseFloatGo (pf : String → Option GoF) (s : String) : Option GoF :=
  pf (stripPct (trimGo s))

/-- Embedding of `getSlippageFromUser` (main.go:166-194; the
main_working.go:49-70 variant behaves identically): trim the line; empty
input returns the default 0.5 with no error; otherwise parse via
`parseFloat`, fail on a parse error, fail when the parsed value compares
less than 0 or greater than 100, and return the value otherwise. -/
def getSlippageFromUser (pf : String → Option GoF) (input : String) :
    Option GoF :=
  let s := trimGo input
  if s = "" then some (GoF.val (mkRat 1 2))
  else
    match parseFloatGo pf s with
    | none => none
    | some v =>
      if goLt v (GoF.val 0) || goGt v (GoF.val 100) then none else some v

/-- Error condition that actually governs `getSlippageFromUser`: the
trimmed input is non-empty, and the parse either fails or yields a value
comparing (IEEE) below 0 or above 100. -/
def slippageErrCond (pf : String → Option GoF) (input : String) : Prop :=
  trimGo input ≠ "" ∧
    match parseFloatGo pf (trimGo input) with
    | none => True
    | some v => goLt v (GoF.val 0) = true ∨ goGt v (GoF.val 100) = true

/-! ## C4 theorems -/

/-- C4: for every decoded pool and every choice of user source account,
destination account and owner, the compiled swap instruction is addressed
to the AMM program and references exactly 18 account entries in the fixed
order token-program, pool, authority, open-orders, target-orders,
base-vault, quote-vault, market-program, market, market-bids,
market-asks, market-event-queue, market-base-vault, market-quote-vault,
market-vault-signer, user-source, user-destination, user-owner, each with
the fixed writable/signer flags, user-owner being the sole entry flagged
as signer. -/
theorem c4_swap_accounts (cpa : CPA) (env : Env) (pool : OnChainPool)
    (us ud uo mvs : PubKey) (aIn mOut : Nat)
    (h : resolveMarketVaultSigner cpa env pool = some mvs) :
    createSwapInstruction cpa env pool us ud uo aIn mOut =
      some (env.raydiumAmmV4, createSwapAccounts env pool mvs us ud uo,
            createSwapInstructionData aIn mOut) ∧
    (createSwapAccounts env pool mvs us ud uo).length = 18 ∧
    (createSwapAccounts env pool mvs us ud uo).map AccountMeta.key =
      [env.tokenProgramID, pool.Address, pool.Authority, pool.OpenOrders,
       pool.TargetOrders, pool.BaseVault, pool.QuoteVault,
       pool.MarketProgram, pool.Market, pool.MarketBids, pool.MarketAsks,
       pool.MarketEventQueue, pool.MarketBaseVault, pool.MarketQuoteVault,
       mvs, us, ud, uo] ∧
    (createSwapAccounts env pool mvs us ud uo).map AccountMeta.isSigner =
      [false, false, false, false, false, false, false, false, false,
       false, false, false, false, false, false, false, false, true] ∧
    (createSwapAccounts env pool mvs us ud uo).map AccountMeta.isWritable =
      [false, true, false, true, true, true, true, false, true, true,
       true, true, true, true, false, true, true, false] := by
  refine ⟨?_, rfl, rfl, rfl, rfl⟩
  simp [createSwapInstruction, h]

/-- Environment with distinct placeholder key values, used by witnesses. -/
def env0 : Env :=
  { tokenProgramID := [101]
    systemProgramID := [102]
    openbookProgram := [103]
    raydiumAmmV4 := [104]
    wsolMint := [105]
    solMint := [106] }

/-- C4 witness: the theorem applied to the decoded zero-blob pool, whose
zero market routes the vault-signer resolution to the system-program
dummy. -/
theorem c4_swap_accounts_witness :
    resolveMarketVaultSigner cpaAll env0 testParsedPool = some [102] ∧
    (createSwapInstruction cpaAll env0 testParsedPool [7] [8] [9] 5 3 =
      some (env0.raydiumAmmV4,
            createSwapAccounts env0 testParsedPool [102] [7] [8] [9],
            createSwapInstructionData 5 3) ∧
     (createSwapAccounts env0 testParsedPool [102] [7] [8] [9]).length = 18 ∧
     (createSwapAccounts env0 testParsedPool [102] [7] [8] [9]).map AccountMeta.key =
      [env0.tokenProgramID, testParsedPool.Address, testParsedPool.Authority,
       testParsedPool.OpenOrders, testParsedPool.TargetOrders,
       testParsedPool.BaseVault, testParsedPool.QuoteVault,
       testParsedPool.MarketProgram, testParsedPool.Market,
       testParsedPool.MarketBids, testParsedPool.MarketAsks,
       testParsedPool.MarketEventQueue, testParsedPool.MarketBaseVault,
       testParsedPool.MarketQuoteVault, [102], [7], [8], [9]] ∧
     (createSwapAccounts env0 testParsedPool [102] [7] [8] [9]).map AccountMeta.isSigner =
      [false, false, false, false, false, false, false, false, false,
       false, false, false, false, false, false, false, false, true] ∧
     (createSwapAccounts env0 testParsedPool [102] [7] [8] [9]).map AccountMeta.isWritable =
      [false, true, false, true, true, true, true, false, true, true,
       true, true, true, true, false, true, true, false]) :=
  ⟨by decide, by
    exact c4_swap_accounts cpaAll env0 testParsedPool [7] [8] [9] [102] 5 3
      (by decide)⟩

/-! ## C5 theorem -/

/-- C5: the sell path of `ExecuteRaydiumSwap` contradicts the claim that
every path multiplies by ten to the power of the input decimal count: at
human amount 1 with input (quote) decimals 6 it produces the raw amount
6, multiplying by the decimal count itself, while the conversions in
`calculateQuoteOnChain` and `executeSwap` (and the claim) give 10^6.
Every floating-point operation involved is exact at this input, so the
rational evaluation matches the Go computation bit for bit. -/
theorem c5_sell_conversion_bug :
    raydiumSellAmountInRaw 1 6 = 6 ∧
    quoteAmountInRaw 1 6 = 1000000 ∧
    raydiumBuyAmountInRaw 1 = 1000000000 ∧
    (6 : ℤ) ≠ 1000000 := by
  refine ⟨?_, ?_, ?_, by decide⟩ <;>
    norm_num [raydiumSellAmountInRaw, quoteAmountInRaw, raydiumBuyAmountInRaw]

/-! ## C7 theorems -/

/-- C7 counterexample: with both a pool address and a token address
given, `main` runs the discovery scan and uses its result, discarding the
given pool address: the opposite of the claimed precedence. -/
theorem c7_counterexample :
    resolvePoolAddress "poolA" "tokenB" "poolC" = ("poolC", true) ∧
    (("poolC", true) : String × Bool) ≠ ("poolA", false) := by
  refine ⟨by decide, by decide⟩

/-- C7 amended: when both a pool address and a token (asset) address are
given, the token address takes precedence: the discovery scan is
performed and its resulting pool replaces the given pool address. -/
theorem c7_token_precedence (p t d : String) (_hp : p ≠ "") (ht : t ≠ "") :
    resolvePoolAddress p t d = (d, true) := by
  simp [resolvePoolAddress, ht]

/-- C7 witness: the amended theorem at concrete flag values. -/
theorem c7_token_precedence_witness :
    ("poolA" ≠ "" ∧ "tokenB" ≠ "") ∧
    resolvePoolAddress "poolA" "tokenB" "poolC" = ("poolC", true) :=
  ⟨by decide, c7_token_precedence "poolA" "tokenB" "poolC" (by decide) (by decide)⟩

/-! ## C8 theorems -/

/-- Instruction list produced by the C8 counterexample scenario: a sell
of the non-native token `[1]` into the wrapped-native destination, with
the source account present and the destination account absent. -/
def c8run : List Ix :=
  executeSwapInstructions env0 "sell" [1] [105] true false [2] [3] [4] 5 3

/-- C8 counterexample: on this sell the compiled sequence is
[create-destination-account, swap, close-destination-account], which
matches none of the four shapes allowed by the claimed
"[optional create-source-account], [swap], [optional
close-destination-account]" (the created account is the destination
account, for mint [105], not the source account for mint [1]). -/
theorem c8_counterexample :
    c8run = [Ix.createATA [2] [2] [105], Ix.swap 5 3,
             Ix.closeAccount [4] [2] [2]] ∧
    c8run ≠ [Ix.swap 5 3] ∧
    c8run ≠ [Ix.createATA [2] [2] [1], Ix.swap 5 3] ∧
    c8run ≠ [Ix.swap 5 3, Ix.closeAccount [4] [2] [2]] ∧
    c8run ≠ [Ix.createATA [2] [2] [1], Ix.swap 5 3,
             Ix.closeAccount [4] [2] [2]] := by
  refine ⟨by decide, by decide, by decide, by decide, by decide⟩

/-- C8 amended: for every sell, the compiled sequence is exactly
[optional create-source-account], [optional create-destination-account],
[swap], [optional close-destination-account (present exactly when the
destination mint is the wrapped-native mint)], and contains no wrap step:
no native-balance transfer and no sync-native instruction is ever emitted
on the sell side. -/
theorem c8_sell_sequence (env : Env) (side : String) (sm dm : PubKey)
    (sEx dEx : Bool) (w sATA dATA : PubKey) (aRaw mOut : Nat)
    (hside : side = "sell") :
    executeSwapInstructions env side sm dm sEx dEx w sATA dATA aRaw mOut =
      (if sEx then [] else [Ix.createATA w w sm]) ++
      (if dEx then [] else [Ix.createATA w w dm]) ++
      [Ix.swap aRaw mOut] ++
      (if dm = env.wsolMint then [Ix.closeAccount dATA w w] else []) ∧
    ((executeSwapInstructions env side sm dm sEx dEx w sATA dATA aRaw
        mOut).all fun i => !(isWrapIx i)) = true := by
  subst hside
  constructor
  · simp [executeSwapInstructions]
  · by_cases hd : dm = env.wsolMint <;> cases sEx <;> cases dEx <;>
      simp [executeSwapInstructions, isWrapIx, hd]

/-- C8 witness: the amended theorem on the counterexample scenario. -/
theorem c8_sell_sequence_witness :
    (("sell" : String) = "sell") ∧
    (executeSwapInstructions env0 "sell" [1] [105] true false [2] [3] [4] 5 3 =
      (if true then [] else [Ix.createATA [2] [2] [1]]) ++
      (if false then [] else [Ix.createATA [2] [2] [105]]) ++
      [Ix.swap 5 3] ++
      (if ([105] : PubKey) = env0.wsolMint then [Ix.closeAccount [4] [2] [2]]
       else []) ∧
     ((executeSwapInstructions env0 "sell" [1] [105] true false [2] [3] [4]
        5 3).all fun i => !(isWrapIx i)) = true) :=
  ⟨rfl, by
    exact c8_sell_sequence env0 "sell" [1] [105] true false [2] [3] [4] 5 3 rfl⟩

/-! ## C10 theorems -/

/-- Concrete parser fragment reflecting documented `strconv.ParseFloat`
behavior on the inputs used below: ordinary decimals parse to their exact
value and the string "NaN" parses, without error, to the not-a-number
value. -/
def pf0 : String → Option GoF := fun s =>
  if s = "2.5" then some (GoF.val (mkRat 5 2))
  else if s = "NaN" then some GoF.nan
  else if s = "7" then some (GoF.val 7)
  else none

/-- C10 counterexample: on input "NaN" the parse succeeds with the
not-a-number value, which compares false against both bounds, so
`getSlippageFromUser` returns it without error even though it is not a
value in [0,100]: the claimed iff fails. -/
theorem c10_counterexample :
    getSlippageFromUser pf0 "NaN" = some GoF.nan ∧
    goInRange GoF.nan = false := by
  refine ⟨by decide, by decide⟩

/-- C10 amended: the slippage reader returns an error iff the trimmed
input is non-empty and, after stripping one trailing percent sign, either
fails to parse or parses to a value comparing (by IEEE comparison, under
which the not-a-number value compares false against both bounds and is
accepted) less than 0 or greater than 100; empty input returns the
default 0.5 with no error; a percent-suffixed "2.5%" is accepted as
2.5. -/
theorem c10_slippage (pf : String → Option GoF) (input : String)
    (hpf : pf "2.5" = some (GoF.val (mkRat 5 2))) :
    (getSlippageFromUser pf input = none ↔ slippageErrCond pf input) ∧
    getSlippageFromUser pf "" = some (GoF.val (mkRat 1 2)) ∧
    getSlippageFromUser pf "2.5%" = some (GoF.val (mkRat 5 2)) := by
  refine ⟨?_, ?_, ?_⟩
  · by_cases hs : trimGo input = ""
    · simp [getSlippageFromUser, hs, slippageErrCond]
    · cases hp : parseFloatGo pf (trimGo input) with
      | none => simp [getSlippageFromUser, hs, hp, slippageErrCond]
      | some v =>
        by_cases hv : (goLt v (GoF.val 0) || goGt v (GoF.val 100)) = true
        · rw [Bool.or_eq_true] at hv
          simp [getSlippageFromUser, hs, hp, slippageErrCond, hv]
        · rw [Bool.or_eq_true] at hv
          push_neg at hv
          simp [getSlippageFromUser, hs, hp, slippageErrCond, hv]
  · have h : trimGo "" = "" := by decide
    simp [getSlippageFromUser, h]
  · simp only [getSlippageFromUser]
    rw [if_neg (show ¬ trimGo "2.5%" = "" by decide)]
    have h2 : parseFloatGo pf (trimGo "2.5%") = pf "2.5" := by
      simp only [parseFloatGo]
      rw [show stripPct (trimGo (trimGo "2.5%")) = "2.5" from by decide]
    rw [h2, hpf]
    show (if (goLt (GoF.val (mkRat 5 2)) (GoF.val 0) ||
              goGt (GoF.val (mkRat 5 2)) (GoF.val 100)) = true then none
          else some (GoF.val (mkRat 5 2))) = some (GoF.val (mkRat 5 2))
    rw [if_neg (by decide)]

/-- C10 witness: the amended theorem under the concrete parser `pf0` at
input "7". -/
theorem c10_slippage_witness :
    pf0 "2.5" = some (GoF.val (mkRat 5 2)) ∧
    ((getSlippageFromUser pf0 "7" = none ↔ slippageErrCond pf0 "7") ∧
     getSlippageFromUser pf0 "" = some (GoF.val (mkRat 1 2)) ∧
     getSlippageFromUser pf0 "2.5%" = some (GoF.val (mkRat 5 2))) :=
  ⟨by decide, by exact c10_slippage pf0 "7" (by decide)⟩

end DefiClient
